import Mathlib

/-!
Verification of the news ETL script (`news-etl/etl.py` and the notebook
source `de-proj1.py`).  The script fetches articles from the NewsData.io
API, normalizes each raw article mapping into a six-field record, and
upserts the records into a sqlite table `articles` keyed by `id`.

The embedding below models:
* Python values that occur in the data path (`Val`), raw article mappings
  (`RawArticle`, with `dict.get` semantics: a missing key yields `none`),
* `str.join`, which raises `TypeError` when an element of the list is not
  a string (`strJoin`),
* the per-item normalization performed in the loop body (`normalizeArticle`),
* `INSERT OR REPLACE` keyed by the `id` column (`upsert`; sqlite treats two
  NULL keys as distinct, so only non-NULL equal ids conflict),
* the whole run of `fetch_and_store_articles` as a function of the fetch
  outcome, a storage-fault model, and the initial database state.

Transactional semantics of the `with sqlite3.connect(DB_NAME) as
conn:` block (Python `sqlite3` documented behavior, default
`isolation_level`): the `CREATE TABLE IF NOT EXISTS` DDL statement executes
in autocommit mode and is durable immediately; the first `INSERT` opens an
implicit transaction covering all subsequent inserts of the batch; when the
body exits normally the context manager commits, and when the body raises
it rolls the implicit transaction back.  An exception raised inside the
body still propagates after the rollback: `sqlite3.Error` is then caught by
the `except sqlite3.Error` clause and printed, while a `TypeError` raised
by `", ".join(...)` on a malformed creator list is not caught anywhere and
escapes the function.
-/

/-- Python values occurring in the data path of the script: strings,
non-string scalars (represented by integers; only their non-string-ness
matters), and lists.  A `dict` value that is absent is represented at the
`Option` level by `none`, matching `dict.get` which returns `None` both for
a missing key and for a stored `None`. -/
inductive Val where
  | str (s : String)
  | num (n : Int)
  | list (xs : List Val)

mutual

/-- Structural (Python `==`) equality test on `Val`, written by hand
because the nested `List Val` blocks the derived instance. -/
def Val.beq : Val → Val → Bool
  | .str s, .str t => s == t
  | .num m, .num n => m == n
  | .list xs, .list ys => Val.beqList xs ys
  | _, _ => false

/-- Elementwise `Val.beq` on lists. -/
def Val.beqList : List Val → List Val → Bool
  | [], [] => true
  | x :: xs, y :: ys => Val.beq x y && Val.beqList xs ys
  | _, _ => false

end

/-- A raw article mapping as returned in the `results` list of the API
response: an untyped string-keyed mapping. -/
abbrev RawArticle := List (String × Val)

/-- `item.get(k)` on a raw article mapping: `none` when the key is absent. -/
def getField (item : RawArticle) (k : String) : Option Val :=
  List.lookup k item

/-- The two exception kinds that can be raised inside the storage loop of
the script: `TypeError` from `", ".join(creator)` when the creator list
holds a non-string element, and `sqlite3.Error` from `cursor.execute`. -/
inductive PyErr where
  | typeError
  | sqliteError
  deriving DecidableEq, Repr

/-- Python `sep.join(xs)`: concatenates the elements of `xs` interleaved
with `sep`; raises `TypeError` as soon as an element is not a string. -/
def strJoin (sep : String) : List Val → Except PyErr String
  | [] => .ok ""
  | [Val.str s] => .ok s
  | Val.str s :: r :: rest =>
    (strJoin sep (r :: rest)).map (fun t => s ++ sep ++ t)
  | _ :: _ => .error .typeError

/-- Joining a list of strings with a separator, written directly from the
words of the spec ("join elements with `", "`" in original order): this is the
expected value against which `strJoin`, the model of Python `str.join`, is
compared. -/
def joinSpec (sep : String) : List String → String
  | [] => ""
  | [s] => s
  | s :: r :: rest => s ++ sep ++ joinSpec sep (r :: rest)

/-- A normalized article record, one row of the `articles` table.  Every
column of the table schema is nullable except that `id` serves as the
primary key (sqlite still admits NULL there, see `upsert`). -/
structure Article where
  id : Option Val
  title : Option Val
  author : Option Val
  body : Option Val
  source : Option Val
  published_at : Option Val

/-- The creator handling of the loop body: `creator = item.get("creator")`,
then `if isinstance(creator, list): creator = ", ".join(creator)`.  The
join raises `TypeError` when the list holds a non-string element; any
non-list value (a string, a number, or an absent field) passes through
unchanged. -/
def normalizedAuthor (item : RawArticle) : Except PyErr (Option Val) :=
  match getField item "creator" with
  | some (Val.list xs) =>
    match strJoin ", " xs with
    | .ok s => .ok (some (Val.str s))
    | .error e => .error e
  | c => .ok c

/-- The per-item normalization of the loop body: the `article` dict built
from `item` with the corrected creator value. -/
def normalizeArticle (item : RawArticle) : Except PyErr Article :=
  match normalizedAuthor item with
  | .ok author =>
    .ok { id := getField item "article_id", title := getField item "title",
          author := author, body := getField item "content",
          source := getField item "source_name",
          published_at := getField item "pubDate" }
  | .error e => .error e

/-- Key conflict of the `id TEXT PRIMARY KEY` column: sqlite regards two
NULL keys as distinct, so only equal non-NULL ids conflict. -/
def sameKey : Option Val → Option Val → Bool
  | some v, some w => Val.beq v w
  | _, _ => false

/-- `INSERT OR REPLACE INTO articles ... VALUES ...`: deletes any existing
row whose primary key conflicts with the `id` of the new row, then inserts the
new row. -/
def upsert (tbl : List Article) (a : Article) : List Article :=
  tbl.filter (fun r => !(sameKey r.id a.id)) ++ [a]

/-- State of the sqlite database file: whether the `articles` table exists,
and its committed rows. -/
structure DB where
  tableExists : Bool
  rows : List Article

/-- The insert loop of the script, acting on the uncommitted working state
of the implicit transaction.  `failAt` is the storage-fault model: the
index of the `cursor.execute` INSERT statement that raises `sqlite3.Error`,
if any.  Normalization of an item happens before its INSERT; a `TypeError`
from the creator join aborts the loop just as an execute fault does, but
with a different (uncatchable) error kind.  Returns the final pending row
list and the value of `inserted_count`. -/
def insertLoop (failAt : Option Nat) :
    Nat → List Article → Nat → List RawArticle → Except PyErr (List Article × Nat)
  | _, pending, count, [] => .ok (pending, count)
  | i, pending, count, item :: rest =>
    match normalizeArticle item with
    | .error e => .error e
    | .ok a =>
      if failAt = some i then .error .sqliteError
      else insertLoop failAt (i + 1) (upsert pending a) (count + 1) rest

/-- Outcome of the fetch step: either `api.news_api(...)` raised (caught by
the first `except` clause), or it returned a value — modeled by its Python
truthiness, its `status` field, and its `results` field (absent keys are
`none`). -/
inductive Fetched where
  | raised
  | value (truthy : Bool) (status : Option Val) (results : Option (List RawArticle))

/-- The Python test `response_data.get("status") == "success"`. -/
def isSuccess : Option Val → Bool
  | some (Val.str s) => s == "success"
  | _ => false

/-- How one call of `fetch_and_store_articles` ends, identified by the
branch taken (each branch prints a distinct message).  `uncaughtTypeError`
means a `TypeError` from the creator join escaped the function: no clause
catches it. -/
inductive RunResult where
  | fetchFailed
  | apiUnsuccessful
  | noArticles
  | stored (n : Nat)
  | dbError
  | uncaughtTypeError
  deriving DecidableEq, Repr

/-- The function `fetch_and_store_articles` of `news-etl/etl.py` (the
function in `de-proj1.py` differs only in the query constant): given the
fetch outcome, the storage-fault model, and the database state, returns
the resulting database state and how the run ended.  The `CREATE TABLE IF
NOT EXISTS` DDL is autocommitted; on an exception inside the `with` body
the implicit transaction holding the inserts of the batch is rolled back. -/
def fetch_and_store_articles (f : Fetched) (failAt : Option Nat) (db : DB) :
    DB × RunResult :=
  match f with
  | .raised => (db, .fetchFailed)
  | .value truthy status results =>
    if truthy && isSuccess status then
      let articles_to_store := results.getD []
      if articles_to_store.isEmpty then (db, .noArticles)
      else
        let db1 : DB := { db with tableExists := true }
        match insertLoop failAt 0 db1.rows 0 articles_to_store with
        | .ok (pending, n) => ({ db1 with rows := pending }, .stored n)
        | .error .sqliteError => (db1, .dbError)
        | .error .typeError => (db1, .uncaughtTypeError)
    else (db, .apiUnsuccessful)

/-- How the module prologue of `news-etl/etl.py` ends: `exit(1)` before any
API client is built when the key is missing, or proceeding with the key. -/
inductive StartupResult where
  | exitBeforeFetch (code : Nat)
  | proceed (apiKey : String)
  deriving DecidableEq, Repr

/-- Module prologue of `news-etl/etl.py`: reads `NEWS_API_KEY` from the
environment; `if not API_KEY` (unset, or set to the falsy empty string)
prints an error and calls `exit(1)` before any fetch or persistence. -/
def startup (envApiKey : Option String) : StartupResult :=
  match envApiKey with
  | none => .exitBeforeFetch 1
  | some k => if k = "" then .exitBeforeFetch 1 else .proceed k

/-- What the transform-and-load cell of the notebook reports on its success
path: whether "No articles found to store." was printed, the fetched count,
the printed `inserted_count`, and the rows returned by the verification
`SELECT id, title, source FROM articles LIMIT 5`. -/
structure CellReport where
  emptyMsgPrinted : Bool
  fetchedCount : Nat
  insertedCount : Nat
  verifySample : List (Option Val × Option Val × Option Val)

/-- How the transform-and-load cell of the notebook ends. -/
inductive CellOutcome where
  | stored (r : CellReport)
  | dbError
  | apiUnsuccessful
  | uncaughtTypeError

/-- The verification read-back: first 5 rows of the committed table,
projected to `(id, title, source)`. -/
def selectSample (rows : List Article) : List (Option Val × Option Val × Option Val) :=
  (rows.take 5).map (fun r => (r.id, r.title, r.source))

/-- The module-level transform-load-validation cell of `de-proj1.py`
(lines 124-207).  Unlike the function variant, its empty-results branch
only prints "No articles found to store." and falls through: the cell still
connects, creates the table, runs the (empty) loop, prints the inserted
count, and runs the verification SELECT. -/
def etlCell (truthy : Bool) (status : Option Val)
    (results : Option (List RawArticle)) (failAt : Option Nat) (db : DB) :
    DB × CellOutcome :=
  if truthy && isSuccess status then
    let articles_to_store := results.getD []
    let emptyMsg := articles_to_store.isEmpty
    let db1 : DB := { db with tableExists := true }
    match insertLoop failAt 0 db1.rows 0 articles_to_store with
    | .ok (pending, n) =>
      ({ db1 with rows := pending },
       .stored ⟨emptyMsg, articles_to_store.length, n, selectSample pending⟩)
    | .error .sqliteError => (db1, .dbError)
    | .error .typeError => (db1, .uncaughtTypeError)
  else (db, .apiUnsuccessful)

/-- A raw article mapping is creator-well-typed when its `creator` field,
if it is a list, holds only strings — the `RawArticle` type of the
spec data model ("string or sequence of strings"). -/
def creatorWellTyped (item : RawArticle) : Prop :=
  ∀ xs, getField item "creator" = some (Val.list xs) → ∀ v ∈ xs, ∃ s, v = Val.str s

/-- A fetch outcome is well-typed when every raw article it carries is
creator-well-typed. -/
def wellTypedFetch : Fetched → Prop
  | .raised => True
  | .value _ _ results => ∀ arts, results = some arts → ∀ item ∈ arts, creatorWellTyped item

/-! ### Helper lemmas -/

mutual

/-- `Val.beq` is reflexive. -/
theorem Val.beq_self : ∀ v : Val, Val.beq v v = true
  | .str _ => by simp [Val.beq]
  | .num _ => by simp [Val.beq]
  | .list xs => by simp [Val.beq, Val.beqList_self xs]

/-- `Val.beqList` is reflexive. -/
theorem Val.beqList_self : ∀ xs : List Val, Val.beqList xs xs = true
  | [] => by simp [Val.beqList]
  | x :: xs => by simp [Val.beqList, Val.beq_self x, Val.beqList_self xs]

end

/-- On a list of strings, the Python join agrees with the spec join. -/
theorem strJoin_map_str (sep : String) : ∀ xs : List String,
    strJoin sep (xs.map Val.str) = .ok (joinSpec sep xs)
  | [] => rfl
  | [_] => rfl
  | s :: r :: rest => by
    have ih := strJoin_map_str sep (r :: rest)
    simp only [List.map_cons] at ih
    simp only [List.map_cons, strJoin, joinSpec, ih, Except.map]

/-- The Python join succeeds on any list whose elements are all strings. -/
theorem strJoin_ok_of_strings (sep : String) : ∀ xs : List Val,
    (∀ v ∈ xs, ∃ s, v = Val.str s) → ∃ t, strJoin sep xs = Except.ok t
  | [], _ => ⟨"", rfl⟩
  | v :: rest, h => by
    obtain ⟨s, rfl⟩ := h v (List.mem_cons_self v rest)
    cases rest with
    | nil => exact ⟨s, rfl⟩
    | cons r t =>
      obtain ⟨u, hu⟩ := strJoin_ok_of_strings sep (r :: t)
        (fun w hw => h w (List.mem_cons_of_mem _ hw))
      exact ⟨s ++ sep ++ u, by simp [strJoin, hu, Except.map]⟩

/-- The creator handling never raises on a creator-well-typed mapping. -/
theorem normalizedAuthor_ok_of_wellTyped (item : RawArticle)
    (h : creatorWellTyped item) : ∃ au, normalizedAuthor item = .ok au := by
  unfold normalizedAuthor
  cases hc : getField item "creator" with
  | none => exact ⟨none, rfl⟩
  | some v =>
    cases v with
    | str s => exact ⟨some (Val.str s), rfl⟩
    | num n => exact ⟨some (Val.num n), rfl⟩
    | list xs =>
      obtain ⟨t, ht⟩ := strJoin_ok_of_strings ", " xs (h xs hc)
      exact ⟨some (Val.str t), by simp [ht]⟩

/-- Normalization of a creator-well-typed mapping succeeds, and every field
other than `author` is the direct passthrough of the corresponding source
field. -/
theorem normalizeArticle_ok_of_wellTyped (item : RawArticle)
    (h : creatorWellTyped item) :
    ∃ a, normalizeArticle item = .ok a
      ∧ a.id = getField item "article_id" ∧ a.title = getField item "title"
      ∧ a.body = getField item "content" ∧ a.source = getField item "source_name"
      ∧ a.published_at = getField item "pubDate" := by
  obtain ⟨au, hau⟩ := normalizedAuthor_ok_of_wellTyped item h
  refine ⟨{ id := getField item "article_id", title := getField item "title",
            author := au, body := getField item "content",
            source := getField item "source_name",
            published_at := getField item "pubDate" }, ?_, rfl, rfl, rfl, rfl, rfl⟩
  simp [normalizeArticle, hau]

/-- The insert loop raises nothing but `sqlite3.Error` on well-typed
input. -/
theorem insertLoop_no_typeError (failAt : Option Nat) :
    ∀ (arts : List RawArticle) (i : Nat) (pending : List Article) (count : Nat),
      (∀ item ∈ arts, creatorWellTyped item) →
      insertLoop failAt i pending count arts ≠ .error .typeError
  | [], _, _, _, _ => by simp [insertLoop]
  | item :: rest, i, pending, count, h => by
    obtain ⟨a, ha, -⟩ := normalizeArticle_ok_of_wellTyped item
      (h item (List.mem_cons_self item rest))
    simp only [insertLoop, ha]
    split
    · simp
    · exact insertLoop_no_typeError failAt rest (i + 1) (upsert pending a) (count + 1)
        (fun x hx => h x (List.mem_cons_of_mem _ hx))

/-- Filtering by a predicate after keeping only its complement yields the
empty list. -/
theorem filter_not_filter {α : Type} (q : α → Bool) : ∀ l : List α,
    List.filter q (List.filter (fun x => !(q x)) l) = []
  | [] => rfl
  | x :: l => by
    by_cases h : q x <;> simp [List.filter, h, filter_not_filter q l]

/-- The status test of the script is false on any value other than the
string "success". -/
theorem isSuccess_eq_false_of_ne (status : Option Val)
    (h : status ≠ some (Val.str "success")) : isSuccess status = false := by
  cases status with
  | none => rfl
  | some v =>
    cases v with
    | str s =>
      simp only [isSuccess, beq_eq_false_iff_ne, ne_eq]
      intro hs
      exact h (by rw [hs])
    | num n => rfl
    | list xs => rfl

/-- A run over a well-typed fetch outcome never ends in an uncaught
`TypeError`, whatever the storage faults are. -/
theorem run_result_no_typeError (f : Fetched) (failAt : Option Nat) (db : DB)
    (hf : wellTypedFetch f) :
    (fetch_and_store_articles f failAt db).2 ≠ RunResult.uncaughtTypeError := by
  cases f with
  | raised => simp [fetch_and_store_articles]
  | value truthy status results =>
    simp only [fetch_and_store_articles]
    by_cases hc : (truthy && isSuccess status) = true
    · rw [if_pos hc]
      cases results with
      | none => simp
      | some arts =>
        by_cases he : arts.isEmpty
        · simp [he]
        · have hnt := insertLoop_no_typeError failAt arts 0 db.rows 0 (hf arts rfl)
          simp only [Option.getD_some, he, if_neg, Bool.false_eq_true,
            not_false_eq_true]
          cases hres : insertLoop failAt 0 db.rows 0 arts with
          | ok p => cases p with
            | mk pending n => simp [hres]
          | error e =>
            cases e with
            | typeError => exact absurd hres hnt
            | sqliteError => simp [hres]
    · rw [if_neg hc]
      simp

/-! ### Claims -/

/-- C1: for every raw article mapping whose `creator` field is a list of
strings, the normalized author equals those strings joined with the
separator ", " in their original order, and every other field is the
corresponding passthrough. -/
theorem creator_list_joined (item : RawArticle) (xs : List String)
    (h : getField item "creator" = some (Val.list (xs.map Val.str))) :
    normalizeArticle item = .ok
      { id := getField item "article_id", title := getField item "title",
        author := some (Val.str (joinSpec ", " xs)),
        body := getField item "content", source := getField item "source_name",
        published_at := getField item "pubDate" } := by
  simp [normalizeArticle, normalizedAuthor, h, strJoin_map_str]

/-- Witness for C1: the two-creator mapping normalizes to the author
"X, Y", and a concrete check of the hypothesis. -/
theorem creator_list_joined_witness :
    getField [("creator", Val.list [Val.str "X", Val.str "Y"])] "creator"
      = some (Val.list (List.map Val.str ["X", "Y"]))
    ∧ normalizeArticle [("creator", Val.list [Val.str "X", Val.str "Y"])]
      = .ok { id := none, title := none, author := some (Val.str "X, Y"),
              body := none, source := none, published_at := none } := by
  constructor
  · rfl
  · rw [creator_list_joined [("creator", Val.list [Val.str "X", Val.str "Y"])]
      ["X", "Y"] rfl]
    rfl

/-- C2: after upserting two articles with the same non-NULL `id` in
sequence into any table, the rows of the result carrying that `id` are
exactly the one row of the second upsert: last write wins and `id` keys
the row. -/
theorem upsert_last_write_wins (tbl : List Article) (a b : Article) (v : Val)
    (ha : a.id = some v) (hb : b.id = some v) :
    (upsert (upsert tbl a) b).filter (fun r => sameKey r.id b.id) = [b] := by
  have hab : a.id = b.id := ha.trans hb.symm
  have hbb : sameKey b.id b.id = true := by
    rw [hb]; simp [sameKey, Val.beq_self]
  have hba : sameKey a.id b.id = true := by rw [hab]; exact hbb
  simp only [upsert, hab, List.filter_append, List.filter_cons, List.filter_nil,
    hbb, hba, Bool.not_true, Bool.false_eq_true, if_false, if_true,
    filter_not_filter, List.filter_filter, Bool.and_self]
  simp [filter_not_filter]

/-- Witness for C2: two concrete articles with id "a1" and different
titles; exactly the second one remains for that id. -/
theorem upsert_last_write_wins_witness :
    (⟨some (Val.str "a1"), some (Val.str "T1"), none, none, none, none⟩ : Article).id
      = some (Val.str "a1")
    ∧ (⟨some (Val.str "a1"), some (Val.str "T2"), none, none, none, none⟩ : Article).id
      = some (Val.str "a1")
    ∧ (upsert (upsert [] ⟨some (Val.str "a1"), some (Val.str "T1"), none, none, none, none⟩)
          ⟨some (Val.str "a1"), some (Val.str "T2"), none, none, none, none⟩).filter
        (fun r => sameKey r.id
          (⟨some (Val.str "a1"), some (Val.str "T2"), none, none, none, none⟩ : Article).id)
      = [⟨some (Val.str "a1"), some (Val.str "T2"), none, none, none, none⟩] :=
  ⟨rfl, rfl, upsert_last_write_wins [] _ _ (Val.str "a1") rfl rfl⟩

/-- C3 counterexample: with two articles and the second INSERT statement
raising `sqlite3.Error`, the committed table afterwards is empty — the row
upserted before the failing statement does NOT remain committed, because
the `with` connection block rolls the implicit transaction back on the
exception.  The second conjunct shows the same first article does commit
when no fault occurs, so the loss is due to the rollback alone. -/
theorem storage_error_rollback_cex :
    (fetch_and_store_articles
        (.value true (some (Val.str "success"))
          (some [[("article_id", Val.str "a1")], [("article_id", Val.str "a2")]]))
        (some 1) ⟨false, []⟩).1.rows = []
    ∧ (fetch_and_store_articles
        (.value true (some (Val.str "success"))
          (some [[("article_id", Val.str "a1")]]))
        none ⟨false, []⟩).1.rows
      = [⟨some (Val.str "a1"), none, none, none, none, none⟩] :=
  ⟨rfl, rfl⟩

/-- C3 (amended): when a storage-layer error occurs during the batch of
upserts, the error is caught and reported, and the whole batch is rolled
back by the connection context manager: the committed rows are exactly
those present before the run, while the autocommitted CREATE TABLE
persists.  (The claim as frozen says rows upserted before the failing
statement remain committed; the rollback refutes that.) -/
theorem storage_error_batch_rolled_back (db : DB) (failAt : Option Nat)
    (arts : List RawArticle)
    (h : insertLoop failAt 0 db.rows 0 arts = .error .sqliteError) :
    fetch_and_store_articles (.value true (some (Val.str "success")) (some arts)) failAt db
      = ({ db with tableExists := true }, .dbError) := by
  have hne : arts.isEmpty = false := by
    cases arts with
    | nil => simp [insertLoop] at h
    | cons x l => rfl
  have hs : isSuccess (some (Val.str "success")) = true := rfl
  simp [fetch_and_store_articles, hs, hne, h]

/-- Witness for C3: a one-article batch whose single INSERT faults; the
pre-existing committed row survives and the outcome is the reported
database error. -/
theorem storage_error_batch_rolled_back_witness :
    insertLoop (some 0) 0
        (⟨true, [⟨some (Val.str "old"), none, none, none, none, none⟩]⟩ : DB).rows 0
        [[("article_id", Val.str "a1")]] = .error .sqliteError
    ∧ fetch_and_store_articles
        (.value true (some (Val.str "success")) (some [[("article_id", Val.str "a1")]]))
        (some 0) ⟨true, [⟨some (Val.str "old"), none, none, none, none, none⟩]⟩
      = (⟨true, [⟨some (Val.str "old"), none, none, none, none, none⟩]⟩, .dbError) := by
  constructor
  · rfl
  · exact storage_error_batch_rolled_back
      ⟨true, [⟨some (Val.str "old"), none, none, none, none, none⟩]⟩ (some 0)
      [[("article_id", Val.str "a1")]] rfl

/-- C4: when the fetch step raises, the exception is caught and logged by
the first except clause, the run ends with the database unchanged (zero
rows persisted), and control returns to the caller without any further
exception. -/
theorem fetch_exception_caught (failAt : Option Nat) (db : DB) :
    fetch_and_store_articles .raised failAt db = (db, .fetchFailed)
    ∧ (fetch_and_store_articles .raised failAt db).2 ≠ RunResult.uncaughtTypeError :=
  ⟨rfl, fun h => RunResult.noConfusion h⟩

/-- C5: a successful fetch with an empty results list writes zero rows, is
not reported as an error, and the function returns after the
"No articles found to store." branch leaving the database untouched. -/
theorem empty_results_clean_exit (failAt : Option Nat) (db : DB) :
    fetch_and_store_articles (.value true (some (Val.str "success")) (some [])) failAt db
      = (db, .noArticles) := rfl

/-- C6: when the response is falsy or its status is not the string
"success", zero rows are written and the run takes the branch that prints
the error diagnostic. -/
theorem non_success_reported (truthy : Bool) (status : Option Val)
    (results : Option (List RawArticle)) (failAt : Option Nat) (db : DB)
    (h : truthy = false ∨ status ≠ some (Val.str "success")) :
    fetch_and_store_articles (.value truthy status results) failAt db
      = (db, .apiUnsuccessful) := by
  rcases h with h | h
  · simp [fetch_and_store_articles, h]
  · simp [fetch_and_store_articles, isSuccess_eq_false_of_ne status h]

/-- Witness for C6: a truthy response with status "error" leaves the
database unchanged and ends in the diagnostic branch. -/
theorem non_success_reported_witness :
    ((some (Val.str "error") : Option Val) ≠ some (Val.str "success"))
    ∧ fetch_and_store_articles (.value true (some (Val.str "error")) none) none ⟨false, []⟩
      = (⟨false, []⟩, .apiUnsuccessful) := by
  have h : (some (Val.str "error") : Option Val) ≠ some (Val.str "success") := by
    intro hc
    injection hc with hv
    injection hv with hs
    exact (by decide : ("error" : String) ≠ "success") hs
  exact ⟨h, non_success_reported true (some (Val.str "error")) none none ⟨false, []⟩
    (Or.inr h)⟩

/-- C7 counterexample: the normalizer is not total over arbitrary untyped
mappings: on a mapping whose creator is a list holding a non-string
element, the join raises `TypeError` and normalization produces no
Article. -/
theorem normalizer_not_total_cex :
    normalizeArticle [("creator", Val.list [Val.num 1])] = .error PyErr.typeError := rfl

/-- C7 (amended): over raw mappings of the spec data model — where the
creator field, when a list, holds only strings — normalization is total,
pure, and never raises, and every field other than author is the direct
passthrough of the corresponding source field (a missing source field
yields null). -/
theorem normalizer_total_on_spec_raw (item : RawArticle) (h : creatorWellTyped item) :
    ∃ a, normalizeArticle item = .ok a
      ∧ a.id = getField item "article_id" ∧ a.title = getField item "title"
      ∧ a.body = getField item "content" ∧ a.source = getField item "source_name"
      ∧ a.published_at = getField item "pubDate" :=
  normalizeArticle_ok_of_wellTyped item h

/-- Witness for C7: a concrete singleton-creator mapping is well typed and
normalizes successfully. -/
theorem normalizer_total_on_spec_raw_witness :
    creatorWellTyped [("creator", Val.list [Val.str "A"])]
    ∧ ∃ a, normalizeArticle [("creator", Val.list [Val.str "A"])] = .ok a
      ∧ a.id = getField [("creator", Val.list [Val.str "A"])] "article_id"
      ∧ a.title = getField [("creator", Val.list [Val.str "A"])] "title"
      ∧ a.body = getField [("creator", Val.list [Val.str "A"])] "content"
      ∧ a.source = getField [("creator", Val.list [Val.str "A"])] "source_name"
      ∧ a.published_at = getField [("creator", Val.list [Val.str "A"])] "pubDate" := by
  have hw : creatorWellTyped [("creator", Val.list [Val.str "A"])] := by
    intro xs hxs v hv
    have h2 : some (Val.list [Val.str "A"]) = some (Val.list xs) := hxs
    injection h2 with h3
    injection h3 with h4
    rw [← h4] at hv
    exact ⟨"A", List.mem_singleton.mp hv⟩
  exact ⟨hw, normalizer_total_on_spec_raw [("creator", Val.list [Val.str "A"])] hw⟩

/-- C8: when the creator field is a plain string or absent, the normalized
author is that value unchanged (the string itself, or null when absent),
and every other field is the corresponding passthrough. -/
theorem creator_passthrough (item : RawArticle)
    (h : (∃ s, getField item "creator" = some (Val.str s))
          ∨ getField item "creator" = none) :
    normalizeArticle item = .ok
      { id := getField item "article_id", title := getField item "title",
        author := getField item "creator",
        body := getField item "content", source := getField item "source_name",
        published_at := getField item "pubDate" } := by
  rcases h with ⟨s, hs⟩ | hn
  · simp [normalizeArticle, normalizedAuthor, hs]
  · simp [normalizeArticle, normalizedAuthor, hn]

/-- Witness for C8: a mapping without a creator key normalizes with a null
author. -/
theorem creator_passthrough_witness :
    getField [("title", Val.str "T")] "creator" = none
    ∧ normalizeArticle [("title", Val.str "T")]
      = .ok { id := none, title := some (Val.str "T"), author := none,
              body := none, source := none, published_at := none } := by
  constructor
  · rfl
  · rw [creator_passthrough [("title", Val.str "T")] (Or.inr rfl)]
    rfl

/-- C9 counterexample: with the configuration present the process starts
the run, yet a successful fetch whose article carries a creator list with
a non-string element makes the run end in an uncaught `TypeError`: the
error propagates as a process failure instead of being logged. -/
theorem run_uncaught_exception_cex :
    startup (some "k") = .proceed "k"
    ∧ (fetch_and_store_articles
        (.value true (some (Val.str "success"))
          (some [[("creator", Val.list [Val.num 1])]]))
        none ⟨false, []⟩).2 = RunResult.uncaughtTypeError :=
  ⟨rfl, rfl⟩

/-- C9 (amended): a missing or empty API key makes the process exit with
status 1 before any fetch or persistence; otherwise, provided every
fetched article is creator-well-typed (the spec data model), the run
always returns normally — no branch ends in an uncaught exception —
whatever the API response and storage faults are. -/
theorem config_exit_or_clean_return (envApiKey : Option String) (f : Fetched)
    (failAt : Option Nat) (db : DB) (hf : wellTypedFetch f) :
    ((envApiKey = none ∨ envApiKey = some "") →
        startup envApiKey = .exitBeforeFetch 1)
    ∧ (fetch_and_store_articles f failAt db).2 ≠ RunResult.uncaughtTypeError := by
  refine ⟨?_, run_result_no_typeError f failAt db hf⟩
  rintro (rfl | rfl) <;> rfl

/-- Witness for C9: the missing-key startup exits with status 1, and a
raising fetch still returns normally. -/
theorem config_exit_or_clean_return_witness :
    wellTypedFetch Fetched.raised
    ∧ (((none : Option String) = none ∨ (none : Option String) = some "") →
        startup none = .exitBeforeFetch 1)
    ∧ (fetch_and_store_articles Fetched.raised none ⟨false, []⟩).2
        ≠ RunResult.uncaughtTypeError := by
  have hf : wellTypedFetch Fetched.raised := trivial
  exact ⟨hf, config_exit_or_clean_return none Fetched.raised none ⟨false, []⟩ hf⟩

/-- C10: in the notebook cell variant, a successful fetch with an empty
results list does not return early: the cell still creates the `articles`
table (a persistent side effect), prints the empty-result message, reports
0 rows inserted, and runs the verification SELECT over the unchanged
committed rows. -/
theorem cell_empty_results_side_effects (failAt : Option Nat) (db : DB) :
    etlCell true (some (Val.str "success")) (some []) failAt db
      = ({ db with tableExists := true },
         .stored ⟨true, 0, 0, selectSample db.rows⟩) := rfl
